import Mathlib

/-!
Verification of the KU-Polls voting application (polls/views.py, polls/tests.py).

The embedding models the relational store as lists of rows and the two view
operations that carry the logic of the application:

* `IndexView.get_queryset` (polls/views.py): filter the questions published
  up to now, order by publish date descending, truncate to five.
* `vote` (polls/views.py): look up the question, resolve the submitted choice,
  and record / update the Vote row.

Time is modelled as an integer timestamp (seconds).  `Question.can_vote` and
`Question.was_published_recently` live in polls/models.py, which is not part
of the sources here; they are modelled from the specification and checked
against the scenarios that polls/tests.py pins down.

A central point of the embedding is the first exception handler of `vote`:

    except (KeyError, not question.can_vote):

CPython evaluates the tuple when the handler is reached and then validates
every member of the tuple before matching the active exception against it.
`not question.can_vote` evaluates to `False` (a bound method object is
truthy), and `False` is not an exception class, so the interpreter raises
TypeError whenever any exception from the try block reaches this handler.
Consequently neither of the two error pages of `vote` is reachable, and
`can_vote` is never actually called by the view.
-/

/-- A row of the Question table: primary key, publish time, optional end of
the voting window (`pub_date` / `end_date` in polls/models.py). -/
structure Question where
  id : Nat
  pub_date : Int
  end_date : Option Int
deriving DecidableEq

/-- A row of the Choice table: primary key and the question it belongs to. -/
structure Choice where
  id : Nat
  question : Nat
deriving DecidableEq

/-- A row of the Vote table: the voting user and the selected choice.  The
row references a Choice, not a Question; the question voted on is only
reachable through the choice. -/
structure Vote where
  user : Nat
  choice : Nat
deriving DecidableEq

/-- The relational store backing the views: the three tables. -/
structure Store where
  questions : List Question
  choices : List Choice
  votes : List Vote
deriving DecidableEq

/-- One day in seconds, the window used by `was_published_recently`. -/
def oneDay : Int := 86400

/-- Modelled from the spec: `Question.can_vote` is defined in
polls/models.py, which is absent from the sources.  Per the spec, voting is
allowed iff `publishTime <= now <= endTime`, the end time being unbounded
when absent; equivalently, `can_vote` is false when `now < publishTime` or
the end time is set and `now > endTime`, and true otherwise.  This agrees
with the four `can_vote` scenarios of polls/tests.py. -/
def can_vote (q : Question) (now : Int) : Bool :=
  decide (q.pub_date ≤ now) &&
    (match q.end_date with
     | none => true
     | some e => decide (now ≤ e))

/-- Modelled from the spec: `Question.was_published_recently` is defined in
polls/models.py, which is absent from the sources.  Per the spec it is true
iff `now - publishTime` is within one day and non-negative.  This agrees
with the three `was_published_recently` scenarios of polls/tests.py. -/
def was_published_recently (q : Question) (now : Int) : Bool :=
  decide (now - oneDay ≤ q.pub_date) && decide (q.pub_date ≤ now)

/-- The descending publish-date order used by `order_by` with key
`-pub_date`: `a` comes no later than `b` when `b.pub_date ≤ a.pub_date`. -/
def pubDateGE (a b : Question) : Prop := b.pub_date ≤ a.pub_date

instance : DecidableRel pubDateGE :=
  fun a b => inferInstanceAs (Decidable (b.pub_date ≤ a.pub_date))

instance : IsTotal Question pubDateGE := ⟨fun a b => le_total b.pub_date a.pub_date⟩

instance : IsTrans Question pubDateGE := ⟨fun _ _ _ h h2 => le_trans h2 h⟩

namespace IndexView

/-- `IndexView.get_queryset` (polls/views.py): the questions whose
`pub_date` is `≤ now`, ordered by `pub_date` descending, truncated to the
first five — the slice is part of the queryset itself. -/
def get_queryset (questions : List Question) (now : Int) : List Question :=
  (((questions.filter fun q => decide (q.pub_date ≤ now)).insertionSort
      pubDateGE).take 5)

end IndexView

/-- The observable response of one call to the `vote` view. -/
inductive VoteResponse where
  /-- `get_object_or_404` found no Question with the requested pk. -/
  | http404 : VoteResponse
  /-- An exception from the first try block reached the handler tuple
  `(KeyError, not question.can_vote)`; the interpreter raises TypeError
  while validating the tuple, so the request fails with an unhandled
  exception and no error page is rendered. -/
  | raisedTypeError : VoteResponse
  /-- `Vote.objects.get` matched more than one row. -/
  | raisedMultipleObjects : VoteResponse
  /-- The `Vote.DoesNotExist` branch ran: a new Vote row was created, the
  success message says the vote was recorded, and the view redirects to the
  results page of the question. -/
  | redirectAfterCreate : Nat → VoteResponse
  /-- The `else` branch ran: the fetched Vote row had its choice assigned
  and saved, the success message says the vote was changed, and the view
  redirects to the results page of the question. -/
  | redirectAfterChange : Nat → VoteResponse
deriving DecidableEq

/-- The full outcome of one call to the `vote` view: the response, the
store after the call, and the number of row writes (INSERT from
`objects.create` plus UPDATE from `save`) the call issued. -/
structure VoteOutcome where
  response : VoteResponse
  store : Store
  writes : Nat
deriving DecidableEq

/-- `question.choice_set.get(pk=cid)`: the choice with the given pk
belonging to the given question, if any. -/
def choiceSetGet (s : Store) (q : Question) (cid : Nat) : Option Choice :=
  s.choices.find? fun c => c.question == q.id && c.id == cid

/-- The rows `Vote.objects.get(user=user, choice=choice)` matches: the
lookup of the `vote` view is keyed by user and choice. -/
def voteObjectsFilter (s : Store) (user : Nat) (choice : Nat) : List Vote :=
  s.votes.filter fun v => v.user == user && v.choice == choice

/-- `vote.save()` on a row fetched from the store: replace the fetched row
by its updated value. -/
def saveUpdatedVote (votes : List Vote) (old new : Vote) : List Vote :=
  match votes with
  | [] => []
  | v :: rest => if v = old then new :: rest else v :: saveUpdatedVote rest old new

/-- The `vote` view (polls/views.py).  `postChoice` is the value of the
submitted form field named choice, `none` when the key is absent.

Control flow of the source, step by step:
1. `get_object_or_404(Question, pk=question_id)`;
2. `question.choice_set.get(pk=request.POST[...])` — a missing key raises
   KeyError, an unknown or foreign choice raises `Choice.DoesNotExist`;
   either exception reaches `except (KeyError, not question.can_vote):`,
   whose tuple holds `False`, so CPython raises TypeError while validating
   the tuple and the second handler is never consulted;
3. `Vote.objects.get(user=user, choice=selected_choice)` — zero matches
   takes the create branch (INSERT, then the trailing `vote.save()`
   UPDATE), one match takes the `else` branch (assign the choice, then
   `vote.save()`), several matches raise `MultipleObjectsReturned`. -/
def vote (s : Store) (user : Nat) (question_id : Nat) (postChoice : Option Nat) :
    VoteOutcome :=
  match s.questions.find? fun q => q.id == question_id with
  | none => ⟨.http404, s, 0⟩
  | some question =>
    match postChoice with
    | none => ⟨.raisedTypeError, s, 0⟩
    | some cid =>
      match choiceSetGet s question cid with
      | none => ⟨.raisedTypeError, s, 0⟩
      | some selected_choice =>
        match voteObjectsFilter s user selected_choice.id with
        | [] =>
          let v : Vote := ⟨user, selected_choice.id⟩
          ⟨.redirectAfterCreate question.id, { s with votes := s.votes ++ [v] }, 2⟩
        | [v] =>
          let v2 : Vote := { v with choice := selected_choice.id }
          ⟨.redirectAfterChange question.id,
            { s with votes := saveUpdatedVote s.votes v v2 }, 1⟩
        | _ :: _ :: _ => ⟨.raisedMultipleObjects, s, 0⟩

/-- The Vote rows of a given user that point to a choice of a given
question — the (user, question) ballots the specification speaks about. -/
def votesForUserQuestion (s : Store) (user qid : Nat) : List Vote :=
  s.votes.filter fun v =>
    v.user == user &&
      match s.choices.find? fun c => c.id == v.choice with
      | none => false
      | some c => c.question == qid

/-- A question published at time 0 with no end date. -/
def exQuestion : Question := { id := 1, pub_date := 0, end_date := none }

/-- A store holding one open question with two choices and no votes yet. -/
def exStore : Store :=
  { questions := [exQuestion]
    choices := [{ id := 10, question := 1 }, { id := 11, question := 1 }]
    votes := [] }

/-- `exStore` after user 7 has voted for choice 10. -/
def exStoreVoted : Store := { exStore with votes := [{ user := 7, choice := 10 }] }

/-- A question whose publish time lies 30 days in the future of time 0. -/
def futureQuestion : Question := { id := 2, pub_date := 2592000, end_date := none }

/-- A store holding only the future question and one of its choices. -/
def futureStore : Store :=
  { questions := [futureQuestion]
    choices := [{ id := 20, question := 2 }]
    votes := [] }

theorem saveUpdatedVote_self (l : List Vote) (a : Vote) : saveUpdatedVote l a a = l := by
  induction l with
  | nil => rfl
  | cons v rest ih =>
    by_cases h : v = a <;> simp [saveUpdatedVote, h, ih]

/-- Claim C1, failing run: starting from a store with no votes, user 7 casts
choice 10 of question 1 and then choice 11 of the same question.  Because the
prior-vote lookup of the view is keyed by (user, choice) rather than
(user, question), the second call finds no match and creates a second Vote,
so afterwards two Votes exist for the (user 7, question 1) pair — the
claimed at-most-one invariant does not hold. -/
theorem vote_twice_two_votes_per_question :
    (votesForUserQuestion
      (vote (vote exStore 7 1 (some 10)).store 7 1 (some 11)).store 7 1).length = 2 := by
  decide

/-- Claim C2, failing run: user 7 holds a Vote for choice 10 of question 1
and casts choice 11 of the same question.  The old Vote is not deleted: the
call takes the create branch (the recorded message, not the changed one) and
the store afterwards holds both Votes. -/
theorem vote_different_choice_keeps_old_vote :
    (vote (vote exStore 7 1 (some 10)).store 7 1 (some 11)).store.votes
      = [{ user := 7, choice := 10 }, { user := 7, choice := 11 }] ∧
    (vote (vote exStore 7 1 (some 10)).store 7 1 (some 11)).response
      = VoteResponse.redirectAfterCreate 1 := by
  decide

/-- Claim C3, failing run: question 2 is published 30 days in the future of
now = 0, so `can_vote` is false; yet the vote view, which never actually
calls `can_vote`, records a Vote for its choice 20 and redirects to the
results page instead of failing with VotingClosed. -/
theorem vote_ignores_votability :
    can_vote futureQuestion 0 = false ∧
    (vote futureStore 7 2 (some 20)).response = VoteResponse.redirectAfterCreate 2 ∧
    (vote futureStore 7 2 (some 20)).store.votes = [{ user := 7, choice := 20 }] := by
  decide

/-- Claim C4, counterexample to the claim as stated: when user 7 re-casts
choice 10 they already voted for, the view takes the `else` branch, which
issues one `save` write and reports the vote as changed — not the claimed
Unchanged result with no write. -/
theorem vote_same_choice_reports_changed_and_saves :
    (vote exStoreVoted 7 1 (some 10)).response = VoteResponse.redirectAfterChange 1 ∧
    (vote exStoreVoted 7 1 (some 10)).writes = 1 := by
  decide

/-- Claim C4 as amended: re-casting the same choice is idempotent on the
store — whenever the question and choice resolve and exactly one Vote row
matches (user, choice), the call leaves the store exactly as it was — but
it performs one `save` write (an UPDATE of identical content) and reports
success with the vote-was-changed message rather than an Unchanged
result. -/
theorem vote_same_choice_keeps_store (s : Store) (u qid cid : Nat)
    (q : Question) (c : Choice) (v : Vote)
    (hq : (s.questions.find? fun q2 => q2.id == qid) = some q)
    (hc : choiceSetGet s q cid = some c)
    (hv : voteObjectsFilter s u c.id = [v]) :
    (vote s u qid (some cid)).store = s ∧
    (vote s u qid (some cid)).writes = 1 ∧
    (vote s u qid (some cid)).response = VoteResponse.redirectAfterChange q.id := by
  have hvmem : v ∈ voteObjectsFilter s u c.id := by
    rw [hv]; exact List.mem_singleton_self v
  have hpred := (List.mem_filter.mp hvmem).2
  have hvc : v.choice = c.id := by
    simp at hpred
    exact hpred.2
  have hfix : ({ v with choice := c.id } : Vote) = v := by
    cases v
    simp_all
  simp [vote, hq, hc, hv, hfix, saveUpdatedVote_self]

/-- Witness for `vote_same_choice_keeps_store` at a concrete store in which
user 7 already voted for choice 10 of question 1. -/
theorem vote_same_choice_keeps_store_witness :
    (vote exStoreVoted 7 1 (some 10)).store = exStoreVoted ∧
    (vote exStoreVoted 7 1 (some 10)).writes = 1 ∧
    (vote exStoreVoted 7 1 (some 10)).response
      = VoteResponse.redirectAfterChange exQuestion.id :=
  vote_same_choice_keeps_store exStoreVoted 7 1 10 exQuestion
    { id := 10, question := 1 } { user := 7, choice := 10 }
    (by decide) (by decide) (by decide)

/-- Claim C5, failing run: with the choice key absent from the form data, or
with choice id 99 which belongs to no choice of question 1, the view raises
TypeError (the first handler tuple holds False, and CPython validates every
member of an except tuple before matching), so neither the InvalidChoice
page nor any other error page is rendered; no Vote is created. -/
theorem vote_invalid_choice_raises_typeerror :
    (vote exStore 7 1 none).response = VoteResponse.raisedTypeError ∧
    (vote exStore 7 1 (some 99)).response = VoteResponse.raisedTypeError ∧
    (vote exStore 7 1 none).store = exStore ∧
    (vote exStore 7 1 (some 99)).store = exStore := by
  decide

/-- Claim C6: `can_vote` returns false exactly when now is before the
publish time, or an end time is set and now is after it; it returns true
exactly when the publish time is at most now and now is at most the end
time whenever one is set. -/
theorem can_vote_iff (q : Question) (now : Int) :
    (can_vote q now = false ↔
      now < q.pub_date ∨ ∃ e, q.end_date = some e ∧ e < now) ∧
    (can_vote q now = true ↔
      q.pub_date ≤ now ∧ ∀ e, q.end_date = some e → now ≤ e) := by
  cases h : q.end_date with
  | none =>
    simp [can_vote, h]
  | some e =>
    simp [can_vote, h]
    omega

/-- Claim C7: every question returned by the index queryset has publish
time at most now, and the returned sequence is sorted by publish time
descending (most recent first). -/
theorem get_queryset_published_sorted (questions : List Question) (now : Int) :
    (∀ q, q ∈ IndexView.get_queryset questions now → q.pub_date ≤ now) ∧
    List.Sorted pubDateGE (IndexView.get_queryset questions now) := by
  constructor
  · intro q hq
    have h1 : q ∈ (questions.filter fun p => decide (p.pub_date ≤ now)).insertionSort pubDateGE :=
      List.mem_of_mem_take hq
    have h2 := (List.perm_insertionSort pubDateGE _).mem_iff.mp h1
    simpa using (List.mem_filter.mp h2).2
  · exact (List.sorted_insertionSort pubDateGE _).sublist (List.take_sublist 5 _)

/-- Witness for `get_queryset_published_sorted` on a one-question table at
now = 5. -/
theorem get_queryset_published_sorted_witness :
    exQuestion.pub_date ≤ 5 ∧
    List.Sorted pubDateGE (IndexView.get_queryset [exQuestion] 5) :=
  ⟨(get_queryset_published_sorted [exQuestion] 5).1 exQuestion (by decide),
   (get_queryset_published_sorted [exQuestion] 5).2⟩

/-- Claim C8: `was_published_recently` is true exactly when the elapsed
time from the publish time to now is non-negative and at most one day;
in particular it is false for a future publish time and false for one
more than a day old. -/
theorem was_published_recently_iff (q : Question) (now : Int) :
    was_published_recently q now = true ↔
      0 ≤ now - q.pub_date ∧ now - q.pub_date ≤ oneDay := by
  simp [was_published_recently, oneDay]
  omega

/-- Claim C9: for any request on an existing question whose form data lacks
the choice key, the vote view ends in the raised TypeError — the first
except tuple holds the value of `not question.can_vote`, a boolean rather
than an exception class, so matching the KeyError raises — and neither
error page is returned; the store is untouched. -/
theorem vote_missing_choice_raises (s : Store) (u qid : Nat)
    (h : (s.questions.find? fun q => q.id == qid).isSome) :
    (vote s u qid none).response = VoteResponse.raisedTypeError ∧
    (vote s u qid none).store = s ∧ (vote s u qid none).writes = 0 := by
  obtain ⟨q, hq⟩ := Option.isSome_iff_exists.mp h
  simp [vote, hq]

/-- Witness for `vote_missing_choice_raises` on the concrete store holding
question 1. -/
theorem vote_missing_choice_raises_witness :
    (vote exStore 7 1 none).response = VoteResponse.raisedTypeError ∧
    (vote exStore 7 1 none).store = exStore ∧
    (vote exStore 7 1 none).writes = 0 :=
  vote_missing_choice_raises exStore 7 1 (by decide)

/-- Claim C10: the index queryset itself returns at most five questions,
for every state of the question table — the truncation to the display
limit is part of the queryset, not of an external caller. -/
theorem get_queryset_at_most_five (questions : List Question) (now : Int) :
    (IndexView.get_queryset questions now).length ≤ 5 := by
  simp [IndexView.get_queryset, List.length_take]
